import Mathlib

/-!
Verification of the Nexora fraud-prediction core: entity normalization,
crowd-sourced risk scoring, content fraud analysis, the OTP (one-time code)
service, and the websocket connection registry / alert push path.  All
definitions are shallow embeddings of the JavaScript source
(`backend/routes/api.js`, `backend/services/otpService.js`,
`backend/services/websocketService.js`).
-/

/-! ## JavaScript string primitives

JS `toLowerCase` on the ASCII range coincides with `Char.toLower`
(maps `A`..`Z` to `a`..`z`, fixes everything else).  JS `trim` removes
leading/trailing whitespace; the regex class `\s` matches the same
whitespace characters (modelled on the ASCII whitespace set).
-/

/-- Whitespace as matched by JS `trim` / the regex class `\s`
(ASCII fragment: space, tab, newline, vertical tab, form feed, carriage return). -/
def jsIsWs (c : Char) : Bool :=
  c = ' ' || c = '\t' || c = '\n' || c = Char.ofNat 11 || c = Char.ofNat 12 || c = '\r'

/-- JS `String.prototype.trim` on a character list. -/
def jsTrim (l : List Char) : List Char :=
  ((l.dropWhile jsIsWs).reverse.dropWhile jsIsWs).reverse

/-- JS `trim` on strings. -/
def jsTrimStr (s : String) : String :=
  String.mk (jsTrim s.toList)

/-- JS `toLowerCase` on strings (ASCII model). -/
def jsLowerStr (s : String) : String :=
  String.mk (s.toList.map Char.toLower)

/-! ## EntityNormalizer (`normalizeEntity`, api.js lines 223-240) -/

/-- The character class stripped from non-email entities:
`/[\s\-\(\)\+\.]/g` — whitespace, dash, parentheses, plus, dot. -/
def isStrippedChar (c : Char) : Bool :=
  jsIsWs c || c = '-' || c = '(' || c = ')' || c = '+' || c = '.'

/-- Core of `normalizeEntity` on character lists: lower-case and trim;
if the result contains `@` return it as-is, otherwise remove the
formatting characters. -/
def normalizeEntityList (l : List Char) : List Char :=
  if '@' ∈ jsTrim (l.map Char.toLower) then jsTrim (l.map Char.toLower)
  else (jsTrim (l.map Char.toLower)).filter (fun c => !isStrippedChar c)

/-- `normalizeEntity` from api.js: canonicalize a raw identifier. -/
def normalizeEntity (entity : String) : String :=
  String.mk (normalizeEntityList entity.toList)

/-! ## RiskScoringEngine (`calculateFraudRisk`, api.js lines 247-336) -/

/-- A fraud report record as consumed by the risk engine (the fields the
scoring algorithm reads). -/
structure FraudReportRecord where
  category : String
  isActive : Bool
deriving DecidableEq

/-- The crowd-intelligence score: `reports.reduce(...)` — each report
contributes 1 point, plus 2 further points when its category is
`Phishing` or `Identity Theft`. -/
def fraudScore (reports : List FraudReportRecord) : Nat :=
  reports.foldl (fun acc report =>
    acc + (1 + if report.category = "Phishing" ∨ report.category = "Identity Theft" then 2 else 0)) 0

/-- Risk-level banding of `calculateFraudRisk`:
`score === 0 → safe`, `score <= 5 → suspicious`, otherwise `high_risk`. -/
def riskLevelOf (score : Nat) : String :=
  if score = 0 then "safe" else if score ≤ 5 then "suspicious" else "high_risk"

/-- The response payload of `calculateFraudRisk` (fields relevant to the core). -/
structure RiskPayload where
  targetEntity : String
  score : Nat
  riskLevel : String
  totalReports : Nat
  isDemo : Bool
deriving DecidableEq

/-- Assembly of the response payload from the matched report list. -/
def riskPayloadOf (normalizedEntity : String) (reports : List FraudReportRecord)
    (isDemo : Bool) : RiskPayload :=
  { targetEntity := normalizedEntity
    score := fraudScore reports
    riskLevel := riskLevelOf (fraudScore reports)
    totalReports := reports.length
    isDemo := isDemo }

/-- A report held in the in-memory demo storage (`demoStorage.reports`). -/
structure DemoStoredReport where
  targetEntity : String
  category : String
  isActive : Bool
deriving DecidableEq

/-- The hard-coded `demoFraudEntities` table: in demo mode these entities get
mock reports pushed into the matched list (count × category). -/
def demoSeedReports (normalizedEntity : String) : List FraudReportRecord :=
  if normalizedEntity = "9944084754" then
    List.replicate 3 { category := "Phishing", isActive := true }
  else if normalizedEntity = "fraud@test.com" then
    List.replicate 2 { category := "Identity Theft", isActive := true }
  else if normalizedEntity = "scam@upi" then
    List.replicate 5 { category := "Financial Fraud", isActive := true }
  else if normalizedEntity = "241cb016@srcw.ac.in" then
    List.replicate 30 { category := "Phishing", isActive := true }
  else []

/-- The report list used in demo mode: the in-memory reports matching the
normalized entity (and active), followed by the mock seed reports. -/
def demoModeReports (demoStorageReports : List DemoStoredReport)
    (normalizedEntity : String) : List FraudReportRecord :=
  ((demoStorageReports.filter
      (fun r => r.targetEntity == normalizedEntity && r.isActive)).map
    (fun r => { category := r.category, isActive := r.isActive })) ++
  demoSeedReports normalizedEntity

/-- `calculateFraudRisk`: the report-store lookup either yields the matched
reports (`Except.ok`) or fails (`Except.error`); on failure the code flips
`global.DEMO_MODE` and recurses, so the result is computed from the demo-mode
report list instead of propagating the failure. -/
def calculateFraudRisk (dbLookup : Except Unit (List FraudReportRecord))
    (demoStorageReports : List DemoStoredReport) (targetEntity : String) : RiskPayload :=
  match dbLookup with
  | .ok reports => riskPayloadOf (normalizeEntity targetEntity) reports false
  | .error _ =>
    riskPayloadOf (normalizeEntity targetEntity)
      (demoModeReports demoStorageReports (normalizeEntity targetEntity)) true

/-! ## OTCService (`otpService.js`) -/

/-- A stored OTP record (`otpStore` map values). -/
structure OTPRecord where
  otp : String
  createdAt : Nat
  expiresAt : Nat
  attempts : Nat
  verified : Bool
deriving DecidableEq

/-- The in-memory OTP store, keyed by `purpose:identifier`. -/
abbrev OtpStore := String → Option OTPRecord

def emptyOtpStore : OtpStore := fun _ => none

def otpStoreSet (store : OtpStore) (k : String) (v : OTPRecord) : OtpStore :=
  fun k' => if k' = k then some v else store k'

def otpStoreDelete (store : OtpStore) (k : String) : OtpStore :=
  fun k' => if k' = k then none else store k'

/-- `OTP_CONFIG` from otpService.js. -/
structure OTPConfig where
  length : Nat
  expiryMinutes : Nat
  maxAttempts : Nat
  cooldownMinutes : Nat

def OTP_CONFIG : OTPConfig :=
  { length := 6, expiryMinutes := 10, maxAttempts := 3, cooldownMinutes := 1 }

/-- `createOTPKey`: `purpose:identifier` with the identifier lower-cased and trimmed. -/
def createOTPKey (identifier purpose : String) : String :=
  purpose ++ ":" ++ jsTrimStr (jsLowerStr identifier)

/-- Result shape of `otpService.generate` (absent JS fields are `none`). -/
structure GenerateResult where
  success : Bool
  error : Option String := none
  waitSeconds : Option Nat := none
  otp : Option String := none
  expiresAt : Option Nat := none
  expiresInMinutes : Option Nat := none
deriving DecidableEq

/-- The success payload of `generate`. -/
def otpFreshResult (now : Nat) (freshOtp : String) : GenerateResult :=
  { success := true
    otp := some freshOtp
    expiresAt := some (now + OTP_CONFIG.expiryMinutes * 60 * 1000)
    expiresInMinutes := some OTP_CONFIG.expiryMinutes }

/-- The record stored by a successful `generate`. -/
def otpFreshRecord (now : Nat) (freshOtp : String) : OTPRecord :=
  { otp := freshOtp
    createdAt := now
    expiresAt := now + OTP_CONFIG.expiryMinutes * 60 * 1000
    attempts := 0
    verified := false }

/-- `otpService.generate(identifier, purpose)`.  `now` is `Date.now()` in
milliseconds and `freshOtp` the freshly drawn random code.  If an existing
record was created within the cooldown window the call fails with `cooldown`
and `waitSeconds = ceil(remaining_ms / 1000)`, leaving the store untouched;
otherwise a new record is stored. -/
def otpGenerate (store : OtpStore) (identifier purpose : String) (now : Nat)
    (freshOtp : String) : GenerateResult × OtpStore :=
  match store (createOTPKey identifier purpose) with
  | some existing =>
    if now - existing.createdAt < OTP_CONFIG.cooldownMinutes * 60 * 1000 then
      ({ success := false
         error := some "cooldown"
         waitSeconds := some ((OTP_CONFIG.cooldownMinutes * 60 * 1000
           - (now - existing.createdAt) + 999) / 1000) },
       store)
    else
      (otpFreshResult now freshOtp,
       otpStoreSet store (createOTPKey identifier purpose) (otpFreshRecord now freshOtp))
  | none =>
      (otpFreshResult now freshOtp,
       otpStoreSet store (createOTPKey identifier purpose) (otpFreshRecord now freshOtp))

/-- Result shape of `otpService.verify`. -/
structure VerifyResult where
  success : Bool
  error : Option String := none
  remainingAttempts : Option Nat := none
deriving DecidableEq

/-- `otpService.verify(identifier, inputOTP, purpose)`: checks existence,
prior use, expiry (deleting an expired record), and the attempt cap (deleting
once `attempts >= maxAttempts`); otherwise increments `attempts` and compares
the stored code with the trimmed input. -/
def otpVerify (store : OtpStore) (identifier inputOTP purpose : String)
    (now : Nat) : VerifyResult × OtpStore :=
  match store (createOTPKey identifier purpose) with
  | none => ({ success := false, error := some "not_found" }, store)
  | some stored =>
    if stored.verified then
      ({ success := false, error := some "already_used" }, store)
    else if now > stored.expiresAt then
      ({ success := false, error := some "expired" },
       otpStoreDelete store (createOTPKey identifier purpose))
    else if stored.attempts ≥ OTP_CONFIG.maxAttempts then
      ({ success := false, error := some "max_attempts" },
       otpStoreDelete store (createOTPKey identifier purpose))
    else if stored.otp = jsTrimStr inputOTP then
      ({ success := true },
       otpStoreSet store (createOTPKey identifier purpose)
         { stored with attempts := stored.attempts + 1, verified := true })
    else
      ({ success := false
         error := some "invalid"
         remainingAttempts := some (OTP_CONFIG.maxAttempts - (stored.attempts + 1)) },
       otpStoreSet store (createOTPKey identifier purpose)
         { stored with attempts := stored.attempts + 1 })

/-- Test scenario for the attempt cap: the store after one successful
`generate` (at `t0`, code `freshOtp`) followed by three `verify` calls with
the wrong code (at `u1`, `u2`, `u3`). -/
def c2Chain (identifier purpose freshOtp wrong : String) (t0 u1 u2 u3 : Nat) : OtpStore :=
  (otpVerify (otpVerify (otpVerify
    (otpGenerate emptyOtpStore identifier purpose t0 freshOtp).2
    identifier wrong purpose u1).2
    identifier wrong purpose u2).2
    identifier wrong purpose u3).2

/-! ## ConnectionRegistry (`websocketService.js`) -/

/-- `connectedUsers`: userId → set of open socket ids (insertion-ordered). -/
abbrev ConnectedUsers := String → Option (List String)

def emptyConnectedUsers : ConnectedUsers := fun _ => none

def registrySet (reg : ConnectedUsers) (u : String) (v : List String) : ConnectedUsers :=
  fun w => if w = u then some v else reg w

def registryDelete (reg : ConnectedUsers) (u : String) : ConnectedUsers :=
  fun w => if w = u then none else reg w

/-- A channel lifecycle event as seen by `initializeWebSocket`'s handlers. -/
inductive WSEvent where
  | connect (userId socketId : String)
  | disconnect (userId socketId : String)

/-- State update of `connectedUsers` on one event: on connection, create the
user's set when absent and add the socket id; on disconnection, remove the
socket id and drop the user's entry when the set becomes empty. -/
def applyWSEvent (reg : ConnectedUsers) (e : WSEvent) : ConnectedUsers :=
  match e with
  | .connect userId socketId =>
    match reg userId with
    | none => registrySet reg userId [socketId]
    | some sockets =>
      registrySet reg userId (if socketId ∈ sockets then sockets else sockets ++ [socketId])
  | .disconnect userId socketId =>
    match reg userId with
    | none => reg
    | some sockets =>
      if (sockets.erase socketId).length = 0 then registryDelete reg userId
      else registrySet reg userId (sockets.erase socketId)

/-- The registry reached from the empty state by a sequence of events. -/
def registryOf (events : List WSEvent) : ConnectedUsers :=
  events.foldl applyWSEvent emptyConnectedUsers

/-- `websocketService.isUserConnected`:
`connectedUsers.has(userId) && connectedUsers.get(userId).size > 0`. -/
def isUserConnected (reg : ConnectedUsers) (userId : String) : Bool :=
  match reg userId with
  | none => false
  | some sockets => decide (sockets.length > 0)

/-- Reference semantics per user: the socket ids opened for `u` and not yet
closed, folded over the event sequence. -/
def openSessionsStep (u : String) (acc : List String) (e : WSEvent) : List String :=
  match e with
  | .connect userId socketId =>
    if userId = u then (if socketId ∈ acc then acc else acc ++ [socketId]) else acc
  | .disconnect userId socketId =>
    if userId = u then acc.erase socketId else acc

def openSessions (events : List WSEvent) (u : String) : List String :=
  events.foldl (openSessionsStep u) []

/-! ## AlertDispatcher push (`websocketService.sendAlert`) -/

/-- The alert fields `sendAlert` forwards in its payload. -/
structure AlertData where
  alertType : String
  fromEntity : String
  riskLevel : String
  riskScore : Nat
deriving DecidableEq

/-- Observable outcome of `sendAlert`: the returned boolean, the sockets the
room emission reaches (the user's open channels), and the forwarded payload. -/
structure SendAlertResult where
  returned : Bool
  deliveredTo : List String
  payload : Option AlertData
deriving DecidableEq

/-- `websocketService.sendAlert(userId, alertData)`: returns `false` when the
socket server is uninitialized; otherwise emits the payload to the room
`user:userId` (reaching exactly the user's open sockets) and returns `true`. -/
def sendAlert (ioInitialized : Bool) (reg : ConnectedUsers) (userId : String)
    (alertData : AlertData) : SendAlertResult :=
  if ioInitialized = false then
    { returned := false, deliveredTo := [], payload := none }
  else
    { returned := true, deliveredTo := (reg userId).getD [], payload := some alertData }

/-! ## ContentFraudAnalyzer (`analyzeContentForFraud`, api.js lines 69-200) -/

def urgencyKeywords : List String :=
  ["urgent", "immediately", "now", "asap", "hurry", "quickly", "fast",
   "limited time", "act now", "don\x27t delay", "last chance", "expires today",
   "deadline", "24 hours", "within hours"]

def financialKeywords : List String :=
  ["bank account", "credit card", "debit card", "atm", "pin", "cvv", "otp",
   "transfer", "transaction", "payment", "loan", "emi", "upi", "neft", "rtgs",
   "blocked", "suspended", "verify account", "update kyc", "kyc expired",
   "prize", "lottery", "jackpot", "won", "winner", "reward", "cash prize",
   "refund", "cashback", "bonus"]

def threatsKeywords : List String :=
  ["account blocked", "account suspended", "will be blocked", "will be suspended",
   "legal action", "police", "arrest", "case filed", "complaint", "court",
   "fine", "penalty", "closure", "terminate", "deactivate", "seized"]

def impersonationKeywords : List String :=
  ["customer care", "customer support", "helpline", "helpdesk",
   "rbi", "reserve bank", "income tax", "it department", "government",
   "sbi", "hdfc", "icici", "axis", "bank manager", "bank officer",
   "amazon", "flipkart", "paytm", "phonepe", "gpay", "google pay"]

def actionRequestsKeywords : List String :=
  ["click here", "click link", "tap here", "click below", "visit",
   "call this number", "call us", "dial", "contact immediately",
   "share otp", "share pin", "provide details", "verify yourself",
   "confirm identity", "update details", "fill form", "download app",
   "install", "remote access", "anydesk", "teamviewer"]

def suspiciousPatternsKeywords : List String :=
  ["dear customer", "dear user", "dear valued", "respected sir",
   "confidential", "do not share", "keep secret",
   "free gift", "free offer", "get free", "100% free",
   "guaranteed", "no risk", "risk free"]

/-- `FRAUD_KEYWORDS` in `Object.entries` (insertion) order. -/
def FRAUD_KEYWORDS : List (String × List String) :=
  [("urgency", urgencyKeywords),
   ("financial", financialKeywords),
   ("threats", threatsKeywords),
   ("impersonation", impersonationKeywords),
   ("action_requests", actionRequestsKeywords),
   ("suspicious_patterns", suspiciousPatternsKeywords)]

/-- `getCategoryWeight` (unknown categories default to 1). -/
def getCategoryWeight (category : String) : Nat :=
  if category = "urgency" then 1
  else if category = "financial" then 2
  else if category = "threats" then 3
  else if category = "impersonation" then 3
  else if category = "action_requests" then 2
  else if category = "suspicious_patterns" then 1
  else 1

/-- JS `String.prototype.includes` on character lists (substring containment). -/
def jsIncludes (haystack needle : List Char) : Bool :=
  haystack.tails.any (fun t => needle.isPrefixOf t)

/-- `keywords.filter(keyword => lowerContent.includes(keyword.toLowerCase()))`. -/
def categoryMatches (lowerContent : List Char) (keywords : List String) : List String :=
  keywords.filter (fun keyword => jsIncludes lowerContent (keyword.toList.map Char.toLower))

/-- The literal URL-shortener regexes of `urlPatterns` (all are plain
case-insensitive substrings). -/
def urlShortenerPatterns : List String :=
  ["bit.ly", "tinyurl", "goo.gl", "ow.ly", "t.co", "shorturl", "tiny.cc", "is.gd", "v.gd"]

/-- Consume one-or-more digits (`[0-9]+`), returning the rest. -/
def consumeDigits (l : List Char) : Option (List Char) :=
  match l with
  | [] => none
  | c :: rest => if c.isDigit then some (rest.dropWhile Char.isDigit) else none

/-- Consume one expected character, returning the rest. -/
def consumeChar (c : Char) (l : List Char) : Option (List Char) :=
  match l with
  | [] => none
  | x :: rest => if x = c then some rest else none

/-- Matcher for `[0-9]+\.[0-9]+\.[0-9]+\.[0-9]+` at the head of the list. -/
def ipHostMatch (l : List Char) : Bool :=
  (((((((consumeDigits l).bind (consumeChar '.')).bind consumeDigits).bind
    (consumeChar '.')).bind consumeDigits).bind (consumeChar '.')).bind consumeDigits).isSome

/-- Matcher for the IP-URL regex `http[s]?:\/\/[0-9]+\.[0-9]+\.[0-9]+\.[0-9]+`
anchored at the head (on lower-cased input, which models the `i` flag). -/
def ipUrlAt (l : List Char) : Bool :=
  match l with
  | 'h' :: 't' :: 't' :: 'p' :: rest =>
    match rest with
    | 's' :: ':' :: '/' :: '/' :: r => ipHostMatch r
    | ':' :: '/' :: '/' :: r => ipHostMatch r
    | _ => false
  | _ => false

/-- Unanchored IP-URL regex match. -/
def ipUrlMatch (l : List Char) : Bool :=
  l.tails.any ipUrlAt

/-- Whether any `urlPatterns` entry matches (the `for ... break` loop adds the
+3 bonus at most once, so only the disjunction matters). -/
def suspiciousUrlHit (lowerContent : List Char) : Bool :=
  urlShortenerPatterns.any (fun p => jsIncludes lowerContent p.toList) || ipUrlMatch lowerContent

/-- `(content.match(/[A-Z]/g) || []).length`. -/
def upperCaseCount (content : List Char) : Nat :=
  (content.filter Char.isUpper).length

/-- `capsRatio > 0.5 && content.length > 20`, with the ratio comparison done
exactly (`count / len > 0.5  ↔  2*count > len`). -/
def excessiveCapsHit (content : List Char) : Bool :=
  decide (2 * upperCaseCount content > content.length) && decide (content.length > 20)

/-- One entry of the `findings` array. -/
structure ContentFinding where
  category : String
  matchedKeywords : List String
  score : Nat
deriving DecidableEq

/-- One iteration of the `for (const [category, keywords] of ...)` loop:
on a non-empty match list, add `matched * weight` to the score and push a finding. -/
def categoryFoldStep (lowerContent : List Char) (st : Nat × List ContentFinding)
    (cat : String × List String) : Nat × List ContentFinding :=
  if (categoryMatches lowerContent cat.2).length > 0 then
    (st.1 + (categoryMatches lowerContent cat.2).length * getCategoryWeight cat.1,
     st.2 ++ [{ category := cat.1
                matchedKeywords := categoryMatches lowerContent cat.2
                score := (categoryMatches lowerContent cat.2).length * getCategoryWeight cat.1 }])
  else st

/-- Accumulated (score, findings) of the analyzer body: keyword categories in
order, then the URL bonus, then the excessive-caps bonus. -/
def contentScoreFindings (c : String) : Nat × List ContentFinding :=
  let lowerContent := c.toList.map Char.toLower
  let afterCats := FRAUD_KEYWORDS.foldl (categoryFoldStep lowerContent) (0, [])
  let afterUrl :=
    if suspiciousUrlHit lowerContent then
      (afterCats.1 + 3,
       afterCats.2 ++ [{ category := "suspicious_url"
                         matchedKeywords := ["shortened/suspicious URL detected"]
                         score := 3 }])
    else afterCats
  if excessiveCapsHit c.toList then
    (afterUrl.1 + 2,
     afterUrl.2 ++ [{ category := "excessive_caps"
                      matchedKeywords := ["Excessive use of capital letters"]
                      score := 2 }])
  else afterUrl

/-- The analyzer's result object.  The early return for falsy / non-string
input carries no `riskLevel`/`riskMessage` fields at all, modelled as `none`. -/
structure ContentAnalysis where
  isSuspicious : Bool
  score : Nat
  riskLevel : Option String
  riskMessage : Option String
  findings : List ContentFinding
deriving DecidableEq

/-- Content banding: `0 → safe`, `<=5 → low`, `<=10 → suspicious`, else `high_risk`. -/
def contentRiskLevel (score : Nat) : String :=
  if score = 0 then "safe"
  else if score ≤ 5 then "low"
  else if score ≤ 10 then "suspicious"
  else "high_risk"

def contentRiskMessage (score : Nat) : String :=
  if score = 0 then "No suspicious patterns detected in content."
  else if score ≤ 5 then "Some potentially suspicious patterns detected. Be cautious."
  else if score ≤ 10 then "Multiple fraud indicators found. Exercise caution!"
  else "HIGH RISK - Multiple fraud patterns detected! Likely a scam."

/-- `analyzeContentForFraud(content)`.  `none` models `null`/`undefined`/non-string
input; `some c` a string.  Falsy input (including the empty string) takes the
early return `{ isSuspicious: false, score: 0, findings: [] }`. -/
def analyzeContentForFraud (content : Option String) : ContentAnalysis :=
  match content with
  | none =>
    { isSuspicious := false, score := 0, riskLevel := none, riskMessage := none, findings := [] }
  | some c =>
    if c = "" then
      { isSuspicious := false, score := 0, riskLevel := none, riskMessage := none, findings := [] }
    else
      { isSuspicious := decide ((contentScoreFindings c).1 > 0)
        score := (contentScoreFindings c).1
        riskLevel := some (contentRiskLevel (contentScoreFindings c).1)
        riskMessage := some (contentRiskMessage (contentScoreFindings c).1)
        findings := (contentScoreFindings c).2 }

/-! ## Helper lemmas on characters and lists -/

theorem char_toNat_ofNat_valid (n : Nat) (h : n < 55296) : (Char.ofNat n).toNat = n := by
  have hv : n.isValidChar := Or.inl h
  rw [Char.ofNat, dif_pos hv]
  rfl

theorem char_eq_of_toNat_eq {a b : Char} (h : a.toNat = b.toNat) : a = b := by
  apply Char.eq_of_val_eq
  apply UInt32.eq_of_toBitVec_eq
  exact BitVec.eq_of_toNat_eq h

theorem toLower_toNat (c : Char) :
    (Char.toLower c).toNat = if c.toNat ≥ 65 ∧ c.toNat ≤ 90 then c.toNat + 32 else c.toNat := by
  unfold Char.toLower
  by_cases h : c.toNat ≥ 65 ∧ c.toNat ≤ 90
  · rw [if_pos h, if_pos h, char_toNat_ofNat_valid _ (by omega)]
  · rw [if_neg h, if_neg h]

theorem toLower_idem (c : Char) : Char.toLower (Char.toLower c) = Char.toLower c := by
  apply char_eq_of_toNat_eq
  rw [toLower_toNat (Char.toLower c)]
  rw [toLower_toNat c]
  by_cases h : c.toNat ≥ 65 ∧ c.toNat ≤ 90
  · rw [if_pos h, if_neg (by omega)]
  · rw [if_neg h, if_neg h]

theorem dropWhile_dropWhile (p : Char → Bool) (l : List Char) :
    (l.dropWhile p).dropWhile p = l.dropWhile p := by
  induction l with
  | nil => rfl
  | cons a t ih =>
    by_cases h : p a
    · simp [List.dropWhile_cons, h, ih]
    · simp [List.dropWhile_cons, h]

theorem head_dropWhile (p : Char → Bool) (l : List Char) (a : Char) (t : List Char)
    (h : l.dropWhile p = a :: t) : p a = false := by
  induction l with
  | nil => simp at h
  | cons x xs ih =>
    rw [List.dropWhile_cons] at h
    by_cases hx : p x
    · exact ih (by simpa [hx] using h)
    · simp [hx] at h
      rw [← h.1]
      exact Bool.of_not_eq_true hx

theorem dropWhile_append_singleton (p : Char → Bool) (a : Char) (ha : p a = false)
    (xs : List Char) : (xs ++ [a]).dropWhile p = xs.dropWhile p ++ [a] := by
  induction xs with
  | nil => simp [List.dropWhile_cons, ha]
  | cons x t ih =>
    by_cases hx : p x
    · simp [List.dropWhile_cons, hx, ih]
    · simp [List.dropWhile_cons, hx]

theorem dropWhile_eq_self_of_none (p : Char → Bool) (l : List Char)
    (h : ∀ x ∈ l, p x = false) : l.dropWhile p = l := by
  cases l with
  | nil => rfl
  | cons a t => simp [List.dropWhile_cons, h a (List.mem_cons_self a t)]

theorem jsTrim_idem (l : List Char) : jsTrim (jsTrim l) = jsTrim l := by
  unfold jsTrim
  cases hA : l.dropWhile jsIsWs with
  | nil => simp
  | cons a t =>
    have ha : jsIsWs a = false := head_dropWhile jsIsWs l a t hA
    have hrev : (a :: t).reverse = t.reverse ++ [a] := by simp
    rw [hrev, dropWhile_append_singleton jsIsWs a ha]
    rw [List.reverse_append]
    simp only [List.reverse_cons, List.reverse_nil, List.nil_append, List.singleton_append]
    rw [List.dropWhile_cons]
    simp only [ha, Bool.false_eq_true, if_false]
    rw [List.reverse_cons, dropWhile_append_singleton jsIsWs a ha]
    rw [List.reverse_reverse, dropWhile_dropWhile]
    rw [List.reverse_append]
    simp

theorem mem_jsTrim {x : Char} {l : List Char} (h : x ∈ jsTrim l) : x ∈ l := by
  unfold jsTrim at h
  rw [List.mem_reverse] at h
  have h1 := (List.dropWhile_sublist jsIsWs (l := (l.dropWhile jsIsWs).reverse)).mem h
  rw [List.mem_reverse] at h1
  exact (List.dropWhile_sublist jsIsWs (l := l)).mem h1

theorem map_toLower_fix (m : List Char) (h : ∀ x ∈ m, Char.toLower x = x) :
    m.map Char.toLower = m := by
  induction m with
  | nil => rfl
  | cons a t ih =>
    simp only [List.map_cons, h a (List.mem_cons_self a t)]
    rw [ih (fun x hx => h x (List.mem_cons_of_mem a hx))]

theorem normalizeEntityList_email (l : List Char) (h : '@' ∈ jsTrim (l.map Char.toLower)) :
    normalizeEntityList l = jsTrim (l.map Char.toLower) := by
  unfold normalizeEntityList
  rw [if_pos h]

theorem normalizeEntityList_phone (l : List Char) (h : '@' ∉ jsTrim (l.map Char.toLower)) :
    normalizeEntityList l = (jsTrim (l.map Char.toLower)).filter (fun c => !isStrippedChar c) := by
  unfold normalizeEntityList
  rw [if_neg h]

theorem normalizeEntityList_chars_lower (l : List Char) :
    ∀ x ∈ normalizeEntityList l, Char.toLower x = x := by
  intro x hx
  have hx' : x ∈ jsTrim (l.map Char.toLower) := by
    by_cases h : '@' ∈ jsTrim (l.map Char.toLower)
    · rw [normalizeEntityList_email l h] at hx
      exact hx
    · rw [normalizeEntityList_phone l h] at hx
      exact List.mem_of_mem_filter hx
  have hmem : x ∈ l.map Char.toLower := mem_jsTrim hx'
  obtain ⟨y, _, hy⟩ := List.mem_map.mp hmem
  rw [← hy]
  exact toLower_idem y

theorem normalizeEntityList_idem (l : List Char) :
    normalizeEntityList (normalizeEntityList l) = normalizeEntityList l := by
  have hfix : (normalizeEntityList l).map Char.toLower = normalizeEntityList l :=
    map_toLower_fix _ (normalizeEntityList_chars_lower l)
  by_cases h : '@' ∈ jsTrim (l.map Char.toLower)
  · have h2 : jsTrim ((normalizeEntityList l).map Char.toLower) = normalizeEntityList l := by
      rw [hfix, normalizeEntityList_email l h, jsTrim_idem]
    have h3 : '@' ∈ jsTrim ((normalizeEntityList l).map Char.toLower) := by
      rw [h2, normalizeEntityList_email l h]
      exact h
    rw [normalizeEntityList_email (normalizeEntityList l) h3, h2]
  · have hnows : ∀ x ∈ normalizeEntityList l, jsIsWs x = false := by
      intro x hx
      rw [normalizeEntityList_phone l h] at hx
      have := List.of_mem_filter hx
      simp only [Bool.not_eq_true', isStrippedChar, Bool.or_eq_false_iff] at this
      exact this.1.1.1.1.1
    have htrim : jsTrim (normalizeEntityList l) = normalizeEntityList l := by
      unfold jsTrim
      rw [dropWhile_eq_self_of_none jsIsWs _ hnows]
      rw [dropWhile_eq_self_of_none jsIsWs _
        (fun x hx => hnows x (List.mem_reverse.mp hx))]
      rw [List.reverse_reverse]
    have h2 : jsTrim ((normalizeEntityList l).map Char.toLower) = normalizeEntityList l := by
      rw [hfix, htrim]
    have h3 : '@' ∉ jsTrim ((normalizeEntityList l).map Char.toLower) := by
      rw [h2]
      intro hm
      rw [normalizeEntityList_phone l h] at hm
      exact h (List.mem_of_mem_filter hm)
    rw [normalizeEntityList_phone (normalizeEntityList l) h3, h2]
    apply List.filter_eq_self.mpr
    intro a ha
    rw [normalizeEntityList_phone l h] at ha
    simpa using (List.mem_filter.mp ha).2

/-- C7: the entity normalizer is idempotent: `normalize(normalize(x)) == normalize(x)`
for every input string, where an input containing `@` is only case-folded and
trimmed and every other input additionally has space, dash, parentheses, plus
and dot stripped. -/
theorem normalizeEntity_idempotent (x : String) :
    normalizeEntity (normalizeEntity x) = normalizeEntity x := by
  unfold normalizeEntity
  have : (String.mk (normalizeEntityList x.toList)).toList = normalizeEntityList x.toList := rfl
  rw [this, normalizeEntityList_idem]

/-- C6 counterexample: the spec asserts
`normalize(" +91 98765-43210 ") == normalize("9876543210")`, but the code keeps
the country-code digits `91`, so the two normalized keys differ. -/
theorem normalizeEntity_country_code_ne :
    normalizeEntity " +91 98765-43210 " ≠ normalizeEntity "9876543210" := by
  decide

/-- C6 amended: the normalizer strips only formatting characters and keeps every
digit, so `normalize(" +91 98765-43210 ") = "919876543210"` while
`normalize("9876543210") = "9876543210"` — the two inputs map to different keys. -/
theorem normalizeEntity_country_code_values :
    normalizeEntity " +91 98765-43210 " = "919876543210" ∧
    normalizeEntity "9876543210" = "9876543210" := by
  constructor
  · decide
  · decide

/-! ## Risk scoring: C1 and C3 -/

theorem fraudScore_eq_sum (reports : List FraudReportRecord) :
    fraudScore reports = (reports.map (fun r =>
      1 + if r.category = "Phishing" ∨ r.category = "Identity Theft" then 2 else 0)).sum := by
  have aux : ∀ (l : List FraudReportRecord) (n : Nat),
      l.foldl (fun acc report =>
        acc + (1 + if report.category = "Phishing" ∨ report.category = "Identity Theft"
          then 2 else 0)) n
      = n + (l.map (fun r =>
          1 + if r.category = "Phishing" ∨ r.category = "Identity Theft" then 2 else 0)).sum := by
    intro l
    induction l with
    | nil => intro n; simp
    | cons a t ih => intro n; simp [List.foldl_cons, ih, Nat.add_assoc]
  unfold fraudScore
  rw [aux]
  simp

theorem riskLevelOf_iff (s : Nat) :
    (riskLevelOf s = "safe" ↔ s = 0) ∧
    (riskLevelOf s = "suspicious" ↔ 1 ≤ s ∧ s ≤ 5) ∧
    (riskLevelOf s = "high_risk" ↔ 5 < s) := by
  unfold riskLevelOf
  split_ifs with h1 h2
  · exact ⟨⟨fun _ => h1, fun _ => rfl⟩,
      ⟨fun h => absurd h (by decide), fun h => by omega⟩,
      ⟨fun h => absurd h (by decide), fun h => by omega⟩⟩
  · exact ⟨⟨fun h => absurd h (by decide), fun h => absurd h h1⟩,
      ⟨fun _ => by omega, fun _ => rfl⟩,
      ⟨fun h => absurd h (by decide), fun h => by omega⟩⟩
  · exact ⟨⟨fun h => absurd h (by decide), fun h => absurd h h1⟩,
      ⟨fun h => absurd h (by decide), fun h => by omega⟩,
      ⟨fun _ => by omega, fun _ => rfl⟩⟩

/-- C1: for every matched report list, the risk score is the sum over reports
of 1 point plus 2 further points for category `Phishing` or `Identity Theft`;
the risk level is `safe` iff the score is 0, `suspicious` iff it is in 1..5,
`high_risk` iff it exceeds 5; and `totalReports` is the number of matched
records (the list length), not the score. -/
theorem calculateFraudRisk_scoring (reports : List FraudReportRecord)
    (normalizedEntity : String) (isDemo : Bool) :
    fraudScore reports = (reports.map (fun r =>
      1 + if r.category = "Phishing" ∨ r.category = "Identity Theft" then 2 else 0)).sum ∧
    (riskLevelOf (fraudScore reports) = "safe" ↔ fraudScore reports = 0) ∧
    (riskLevelOf (fraudScore reports) = "suspicious" ↔
      1 ≤ fraudScore reports ∧ fraudScore reports ≤ 5) ∧
    (riskLevelOf (fraudScore reports) = "high_risk" ↔ 5 < fraudScore reports) ∧
    (riskPayloadOf normalizedEntity reports isDemo).score = fraudScore reports ∧
    (riskPayloadOf normalizedEntity reports isDemo).riskLevel =
      riskLevelOf (fraudScore reports) ∧
    (riskPayloadOf normalizedEntity reports isDemo).totalReports = reports.length := by
  obtain ⟨h1, h2, h3⟩ := riskLevelOf_iff (fraudScore reports)
  exact ⟨fraudScore_eq_sum reports, h1, h2, h3, rfl, rfl, rfl⟩

/-- C3 counterexample: when the report-store lookup fails for entity
`9944084754`, the engine does not degrade to a zero-report result — the
demo-mode fallback injects 3 mock `Phishing` reports, giving score 9 and
`high_risk`. -/
theorem calculateFraudRisk_failure_not_zero :
    (calculateFraudRisk (Except.error ()) [] "9944084754").score = 9 ∧
    (calculateFraudRisk (Except.error ()) [] "9944084754").riskLevel = "high_risk" ∧
    (calculateFraudRisk (Except.error ()) [] "9944084754").totalReports = 3 ∧
    ¬ ((calculateFraudRisk (Except.error ()) [] "9944084754").score = 0 ∧
       (calculateFraudRisk (Except.error ()) [] "9944084754").riskLevel = "safe" ∧
       (calculateFraudRisk (Except.error ()) [] "9944084754").totalReports = 0) := by
  decide

/-- C3 amended: when the report-store lookup fails the engine never propagates
the failure; it returns the demo-mode result, which equals the zero-report
degraded result (score 0, `safe`, totalReports 0) exactly when the in-memory
demo storage has no matching active report and the normalized entity is not
one of the four seeded demo entities. -/
theorem calculateFraudRisk_degraded (targetEntity : String)
    (demoStorageReports : List DemoStoredReport)
    (hdemo : demoStorageReports.filter
      (fun r => r.targetEntity == normalizeEntity targetEntity && r.isActive) = [])
    (hseed : demoSeedReports (normalizeEntity targetEntity) = []) :
    calculateFraudRisk (Except.error ()) demoStorageReports targetEntity =
      { targetEntity := normalizeEntity targetEntity, score := 0, riskLevel := "safe",
        totalReports := 0, isDemo := true } := by
  unfold calculateFraudRisk demoModeReports
  rw [hdemo, hseed]
  rfl

/-- Witness for C3's amended theorem at a concrete unseeded entity. -/
theorem calculateFraudRisk_degraded_witness :
    (([] : List DemoStoredReport).filter
      (fun r => r.targetEntity == normalizeEntity "someone@example.org" && r.isActive) = [] ∧
     demoSeedReports (normalizeEntity "someone@example.org") = []) ∧
    calculateFraudRisk (Except.error ()) [] "someone@example.org" =
      { targetEntity := normalizeEntity "someone@example.org", score := 0, riskLevel := "safe",
        totalReports := 0, isDemo := true } :=
  ⟨⟨rfl, by decide⟩, calculateFraudRisk_degraded "someone@example.org" [] rfl (by decide)⟩

/-! ## OTCService: C8 and C2 -/

theorem otpStoreSet_same (store : OtpStore) (k : String) (v : OTPRecord) :
    otpStoreSet store k v k = some v := by
  simp [otpStoreSet]

theorem otpGenerate_success_store (store : OtpStore) (identifier purpose : String)
    (now : Nat) (freshOtp : String)
    (h : (otpGenerate store identifier purpose now freshOtp).1.success = true) :
    (otpGenerate store identifier purpose now freshOtp).2 =
      otpStoreSet store (createOTPKey identifier purpose) (otpFreshRecord now freshOtp) := by
  unfold otpGenerate at h ⊢
  cases hk : store (createOTPKey identifier purpose) with
  | none => simp [hk]
  | some existing =>
    by_cases hc : now - existing.createdAt < OTP_CONFIG.cooldownMinutes * 60 * 1000
    · rw [hk] at h
      simp [hc] at h
    · simp [hk, hc]

/-- C8: after a successful `generate`, a second `generate` for the same
(identifier, purpose) key strictly inside the 60-second cooldown window fails
with `success:false`, error `cooldown`, a strictly positive `waitSeconds`
equal to the remaining wait rounded up to whole seconds, and leaves the
stored record unchanged. -/
theorem otpGenerate_cooldown (store : OtpStore) (identifier purpose freshOtp1 freshOtp2 : String)
    (t1 t2 : Nat)
    (hsucc : (otpGenerate store identifier purpose t1 freshOtp1).1.success = true)
    (hle : t1 ≤ t2) (hwin : t2 < t1 + 60000) :
    (otpGenerate (otpGenerate store identifier purpose t1 freshOtp1).2
        identifier purpose t2 freshOtp2).1 =
      { success := false, error := some "cooldown",
        waitSeconds := some ((60000 - (t2 - t1) + 999) / 1000) } ∧
    0 < (60000 - (t2 - t1) + 999) / 1000 ∧
    (otpGenerate (otpGenerate store identifier purpose t1 freshOtp1).2
        identifier purpose t2 freshOtp2).2 =
      (otpGenerate store identifier purpose t1 freshOtp1).2 := by
  rw [otpGenerate_success_store store identifier purpose t1 freshOtp1 hsucc]
  have hk : otpStoreSet store (createOTPKey identifier purpose) (otpFreshRecord t1 freshOtp1)
      (createOTPKey identifier purpose) = some (otpFreshRecord t1 freshOtp1) :=
    otpStoreSet_same _ _ _
  unfold otpGenerate
  simp only [hk]
  have hc : t2 - (otpFreshRecord t1 freshOtp1).createdAt <
      OTP_CONFIG.cooldownMinutes * 60 * 1000 := by
    simp only [otpFreshRecord, OTP_CONFIG]
    omega
  rw [if_pos hc]
  refine ⟨?_, by omega, rfl⟩
  norm_num [otpFreshRecord, OTP_CONFIG]

/-- Witness for C8 at a concrete scenario (second call 30 s after the first). -/
theorem otpGenerate_cooldown_witness :
    ((otpGenerate emptyOtpStore "user@example.com" "kyc" 0 "123456").1.success = true ∧
     (0 : Nat) ≤ 30000 ∧ 30000 < 0 + 60000) ∧
    ((otpGenerate (otpGenerate emptyOtpStore "user@example.com" "kyc" 0 "123456").2
        "user@example.com" "kyc" 30000 "654321").1 =
      { success := false, error := some "cooldown",
        waitSeconds := some ((60000 - (30000 - 0) + 999) / 1000) } ∧
     0 < (60000 - (30000 - 0) + 999) / 1000 ∧
     (otpGenerate (otpGenerate emptyOtpStore "user@example.com" "kyc" 0 "123456").2
        "user@example.com" "kyc" 30000 "654321").2 =
      (otpGenerate emptyOtpStore "user@example.com" "kyc" 0 "123456").2) :=
  ⟨⟨by decide, by decide, by decide⟩,
   otpGenerate_cooldown emptyOtpStore "user@example.com" "kyc" "123456" "654321" 0 30000
     (by decide) (by decide) (by decide)⟩

theorem otpVerify_wrong_step (store : OtpStore) (identifier inputOTP purpose : String)
    (now : Nat) (stored : OTPRecord)
    (hk : store (createOTPKey identifier purpose) = some stored)
    (hv : stored.verified = false)
    (he : ¬ now > stored.expiresAt)
    (ha : stored.attempts < OTP_CONFIG.maxAttempts)
    (hm : stored.otp ≠ jsTrimStr inputOTP) :
    otpVerify store identifier inputOTP purpose now =
      ({ success := false, error := some "invalid",
         remainingAttempts := some (OTP_CONFIG.maxAttempts - (stored.attempts + 1)) },
       otpStoreSet store (createOTPKey identifier purpose)
         { stored with attempts := stored.attempts + 1 }) := by
  unfold otpVerify
  simp only [hk]
  rw [if_neg (by simp [hv]), if_neg he, if_neg (by omega), if_neg hm]

theorem otpVerify_max_step (store : OtpStore) (identifier inputOTP purpose : String)
    (now : Nat) (stored : OTPRecord)
    (hk : store (createOTPKey identifier purpose) = some stored)
    (hv : stored.verified = false)
    (he : ¬ now > stored.expiresAt)
    (ha : stored.attempts ≥ OTP_CONFIG.maxAttempts) :
    otpVerify store identifier inputOTP purpose now =
      ({ success := false, error := some "max_attempts" },
       otpStoreDelete store (createOTPKey identifier purpose)) := by
  unfold otpVerify
  simp only [hk]
  rw [if_neg (by simp [hv]), if_neg he, if_pos ha]

theorem otpVerify_not_found_step (store : OtpStore) (identifier inputOTP purpose : String)
    (now : Nat)
    (hk : store (createOTPKey identifier purpose) = none) :
    otpVerify store identifier inputOTP purpose now =
      ({ success := false, error := some "not_found" }, store) := by
  unfold otpVerify
  simp only [hk]

/-- C2 amended: three consecutive `verify` calls with a wrong code exhaust the
attempt budget (`attempts = 3 = maxAttempts`) but leave the record in the
store; it is the **fourth** call that deletes the record and fails with
`max_attempts`; only a fifth call returns `not_found`. -/
theorem otpVerify_attempt_cap_flow (identifier purpose freshOtp wrong : String)
    (t0 u1 u2 u3 u4 u5 : Nat)
    (hne : freshOtp ≠ jsTrimStr wrong)
    (hu1 : u1 ≤ t0 + 600000) (hu2 : u2 ≤ t0 + 600000) (hu3 : u3 ≤ t0 + 600000)
    (hu4 : u4 ≤ t0 + 600000) :
    c2Chain identifier purpose freshOtp wrong t0 u1 u2 u3 (createOTPKey identifier purpose) =
      some { otp := freshOtp, createdAt := t0, expiresAt := t0 + 600000,
             attempts := 3, verified := false } ∧
    (otpVerify (c2Chain identifier purpose freshOtp wrong t0 u1 u2 u3)
        identifier wrong purpose u4).1 =
      { success := false, error := some "max_attempts" } ∧
    (otpVerify (c2Chain identifier purpose freshOtp wrong t0 u1 u2 u3)
        identifier wrong purpose u4).2 (createOTPKey identifier purpose) = none ∧
    (otpVerify (otpVerify (c2Chain identifier purpose freshOtp wrong t0 u1 u2 u3)
        identifier wrong purpose u4).2 identifier wrong purpose u5).1 =
      { success := false, error := some "not_found" } := by
  have hgen : (otpGenerate emptyOtpStore identifier purpose t0 freshOtp).2 =
      otpStoreSet emptyOtpStore (createOTPKey identifier purpose)
        ({ otp := freshOtp, createdAt := t0, expiresAt := t0 + 600000,
           attempts := 0, verified := false } : OTPRecord) := by
    rw [otpGenerate_success_store _ _ _ _ _
      (by unfold otpGenerate; simp [emptyOtpStore, otpFreshResult])]
    norm_num [otpFreshRecord, OTP_CONFIG]
  have hv1 := otpVerify_wrong_step
    (otpStoreSet emptyOtpStore (createOTPKey identifier purpose)
      ({ otp := freshOtp, createdAt := t0, expiresAt := t0 + 600000,
         attempts := 0, verified := false } : OTPRecord))
    identifier wrong purpose u1 _ (otpStoreSet_same _ _ _) rfl
    (by show ¬ u1 > t0 + 600000; omega) (by show (0 : Nat) < OTP_CONFIG.maxAttempts; norm_num [OTP_CONFIG])
    hne
  have e1 : (otpVerify (otpGenerate emptyOtpStore identifier purpose t0 freshOtp).2
      identifier wrong purpose u1).2 =
      otpStoreSet (otpStoreSet emptyOtpStore (createOTPKey identifier purpose)
        ({ otp := freshOtp, createdAt := t0, expiresAt := t0 + 600000,
           attempts := 0, verified := false } : OTPRecord))
        (createOTPKey identifier purpose)
        ({ otp := freshOtp, createdAt := t0, expiresAt := t0 + 600000,
           attempts := 1, verified := false } : OTPRecord) := by
    rw [hgen, hv1]
  have hv2 := otpVerify_wrong_step
    (otpStoreSet (otpStoreSet emptyOtpStore (createOTPKey identifier purpose)
        ({ otp := freshOtp, createdAt := t0, expiresAt := t0 + 600000,
           attempts := 0, verified := false } : OTPRecord))
      (createOTPKey identifier purpose)
      ({ otp := freshOtp, createdAt := t0, expiresAt := t0 + 600000,
         attempts := 1, verified := false } : OTPRecord))
    identifier wrong purpose u2 _ (otpStoreSet_same _ _ _) rfl
    (by show ¬ u2 > t0 + 600000; omega) (by show (1 : Nat) < OTP_CONFIG.maxAttempts; norm_num [OTP_CONFIG])
    hne
  have e2 : (otpVerify (otpVerify (otpGenerate emptyOtpStore identifier purpose t0 freshOtp).2
      identifier wrong purpose u1).2 identifier wrong purpose u2).2 =
      otpStoreSet (otpStoreSet (otpStoreSet emptyOtpStore (createOTPKey identifier purpose)
          ({ otp := freshOtp, createdAt := t0, expiresAt := t0 + 600000,
             attempts := 0, verified := false } : OTPRecord))
        (createOTPKey identifier purpose)
        ({ otp := freshOtp, createdAt := t0, expiresAt := t0 + 600000,
           attempts := 1, verified := false } : OTPRecord))
        (createOTPKey identifier purpose)
        ({ otp := freshOtp, createdAt := t0, expiresAt := t0 + 600000,
           attempts := 2, verified := false } : OTPRecord) := by
    rw [e1, hv2]
  have hv3 := otpVerify_wrong_step
    (otpStoreSet (otpStoreSet (otpStoreSet emptyOtpStore (createOTPKey identifier purpose)
          ({ otp := freshOtp, createdAt := t0, expiresAt := t0 + 600000,
             attempts := 0, verified := false } : OTPRecord))
        (createOTPKey identifier purpose)
        ({ otp := freshOtp, createdAt := t0, expiresAt := t0 + 600000,
           attempts := 1, verified := false } : OTPRecord))
      (createOTPKey identifier purpose)
      ({ otp := freshOtp, createdAt := t0, expiresAt := t0 + 600000,
         attempts := 2, verified := false } : OTPRecord))
    identifier wrong purpose u3 _ (otpStoreSet_same _ _ _) rfl
    (by show ¬ u3 > t0 + 600000; omega) (by show (2 : Nat) < OTP_CONFIG.maxAttempts; norm_num [OTP_CONFIG])
    hne
  have hchain : c2Chain identifier purpose freshOtp wrong t0 u1 u2 u3 =
      otpStoreSet (otpStoreSet (otpStoreSet (otpStoreSet emptyOtpStore
            (createOTPKey identifier purpose)
            ({ otp := freshOtp, createdAt := t0, expiresAt := t0 + 600000,
               attempts := 0, verified := false } : OTPRecord))
          (createOTPKey identifier purpose)
          ({ otp := freshOtp, createdAt := t0, expiresAt := t0 + 600000,
             attempts := 1, verified := false } : OTPRecord))
        (createOTPKey identifier purpose)
        ({ otp := freshOtp, createdAt := t0, expiresAt := t0 + 600000,
           attempts := 2, verified := false } : OTPRecord))
        (createOTPKey identifier purpose)
        ({ otp := freshOtp, createdAt := t0, expiresAt := t0 + 600000,
           attempts := 3, verified := false } : OTPRecord) := by
    unfold c2Chain
    rw [e2, hv3]
  have hv4 := otpVerify_max_step
    (otpStoreSet (otpStoreSet (otpStoreSet (otpStoreSet emptyOtpStore
          (createOTPKey identifier purpose)
          ({ otp := freshOtp, createdAt := t0, expiresAt := t0 + 600000,
             attempts := 0, verified := false } : OTPRecord))
        (createOTPKey identifier purpose)
        ({ otp := freshOtp, createdAt := t0, expiresAt := t0 + 600000,
           attempts := 1, verified := false } : OTPRecord))
      (createOTPKey identifier purpose)
      ({ otp := freshOtp, createdAt := t0, expiresAt := t0 + 600000,
         attempts := 2, verified := false } : OTPRecord))
      (createOTPKey identifier purpose)
      ({ otp := freshOtp, createdAt := t0, expiresAt := t0 + 600000,
         attempts := 3, verified := false } : OTPRecord))
    identifier wrong purpose u4 _ (otpStoreSet_same _ _ _) rfl
    (by show ¬ u4 > t0 + 600000; omega) (by show (3 : Nat) ≥ OTP_CONFIG.maxAttempts; norm_num [OTP_CONFIG])
  refine ⟨?_, ?_, ?_, ?_⟩
  · rw [hchain, otpStoreSet_same]
  · rw [hchain, hv4]
  · rw [hchain, hv4]
    simp [otpStoreDelete]
  · rw [hchain, hv4]
    rw [otpVerify_not_found_step _ _ _ _ _ (by simp [otpStoreDelete])]

/-- C2 counterexample: from a fresh record (`generate` at t=0), three wrong
`verify` calls do *not* delete the record (it is still present with
`attempts = 3`), and the fourth call returns `max_attempts`, not `not_found`. -/
theorem otpVerify_three_wrong_counterexample :
    (c2Chain "user@example.com" "kyc" "123456" "000000" 0 1000 2000 3000
      (createOTPKey "user@example.com" "kyc")).isSome = true ∧
    (otpVerify (c2Chain "user@example.com" "kyc" "123456" "000000" 0 1000 2000 3000)
      "user@example.com" "000000" "kyc" 4000).1.error = some "max_attempts" ∧
    (otpVerify (c2Chain "user@example.com" "kyc" "123456" "000000" 0 1000 2000 3000)
      "user@example.com" "000000" "kyc" 4000).1.error ≠ some "not_found" := by
  decide

/-- Witness for C2's amended theorem at a concrete scenario. -/
theorem otpVerify_attempt_cap_flow_witness :
    ("123456" ≠ jsTrimStr "000000" ∧ (1000 : Nat) ≤ 0 + 600000 ∧ (2000 : Nat) ≤ 0 + 600000 ∧
     (3000 : Nat) ≤ 0 + 600000 ∧ (4000 : Nat) ≤ 0 + 600000) ∧
    (c2Chain "user2@example.com" "kyc" "123456" "000000" 0 1000 2000 3000
        (createOTPKey "user2@example.com" "kyc") =
      some { otp := "123456", createdAt := 0, expiresAt := 0 + 600000,
             attempts := 3, verified := false } ∧
    (otpVerify (c2Chain "user2@example.com" "kyc" "123456" "000000" 0 1000 2000 3000)
        "user2@example.com" "000000" "kyc" 4000).1 =
      { success := false, error := some "max_attempts" } ∧
    (otpVerify (c2Chain "user2@example.com" "kyc" "123456" "000000" 0 1000 2000 3000)
        "user2@example.com" "000000" "kyc" 4000).2 (createOTPKey "user2@example.com" "kyc") = none ∧
    (otpVerify (otpVerify (c2Chain "user2@example.com" "kyc" "123456" "000000" 0 1000 2000 3000)
        "user2@example.com" "000000" "kyc" 4000).2 "user2@example.com" "000000" "kyc" 5000).1 =
      { success := false, error := some "not_found" }) :=
  ⟨⟨by decide, by decide, by decide, by decide, by decide⟩,
   otpVerify_attempt_cap_flow "user2@example.com" "kyc" "123456" "000000" 0 1000 2000 3000 4000 5000
     (by decide) (by decide) (by decide) (by decide) (by decide)⟩

/-! ## ConnectionRegistry: C9 and C4 -/

theorem applyWSEvent_inv (reg : ConnectedUsers) (ref : String → List String)
    (h : ∀ u, reg u = if ref u = [] then none else some (ref u)) (e : WSEvent) :
    ∀ u, applyWSEvent reg e u =
      if openSessionsStep u (ref u) e = [] then none
      else some (openSessionsStep u (ref u) e) := by
  intro u
  cases e with
  | connect userId socketId =>
    by_cases hn : ref userId = []
    · have hnone : reg userId = none := by rw [h userId, if_pos hn]
      simp only [applyWSEvent, hnone, registrySet, openSessionsStep]
      by_cases hu : userId = u
      · subst hu
        simp [hn]
      · rw [if_neg (fun hc => hu hc.symm), if_neg hu, h u]
    · have hsome : reg userId = some (ref userId) := by rw [h userId, if_neg hn]
      simp only [applyWSEvent, hsome, registrySet, openSessionsStep]
      by_cases hu : userId = u
      · subst hu
        by_cases hmem : socketId ∈ ref userId
        · simp [hmem, hn]
        · simp [hmem]
      · rw [if_neg (fun hc => hu hc.symm), if_neg hu, h u]
  | disconnect userId socketId =>
    by_cases hn : ref userId = []
    · have hnone : reg userId = none := by rw [h userId, if_pos hn]
      simp only [applyWSEvent, hnone, openSessionsStep]
      by_cases hu : userId = u
      · subst hu
        simp [hn, hnone]
      · rw [if_neg hu, h u]
    · have hsome : reg userId = some (ref userId) := by rw [h userId, if_neg hn]
      simp only [applyWSEvent, hsome, openSessionsStep]
      by_cases hu : userId = u
      · subst hu
        by_cases hlen : ((ref userId).erase socketId).length = 0
        · have hni : (ref userId).erase socketId = [] := List.length_eq_zero.mp hlen
          simp [hlen, registryDelete, hni]
        · have hne2 : (ref userId).erase socketId ≠ [] := by
            intro hh
            exact hlen (by rw [hh]; rfl)
          simp [hlen, registrySet, hne2]
      · rw [if_neg hu]
        by_cases hlen : ((ref userId).erase socketId).length = 0
        · simp only [hlen, if_true, registryDelete]
          rw [if_neg (fun hc => hu hc.symm), h u]
        · simp only [hlen, if_false, registrySet]
          rw [if_neg (fun hc => hu hc.symm), h u]

theorem registry_fold_inv (events : List WSEvent) :
    ∀ (reg : ConnectedUsers) (ref : String → List String),
      (∀ u, reg u = if ref u = [] then none else some (ref u)) →
      ∀ u, (events.foldl applyWSEvent reg) u =
        if events.foldl (openSessionsStep u) (ref u) = [] then none
        else some (events.foldl (openSessionsStep u) (ref u)) := by
  induction events with
  | nil =>
    intro reg ref h u
    simpa using h u
  | cons e es ih =>
    intro reg ref h u
    simp only [List.foldl_cons]
    exact ih (applyWSEvent reg e) (fun v => openSessionsStep v (ref v) e)
      (applyWSEvent_inv reg ref h e) u

/-- C9: for every event sequence and user, the registry entry is present
exactly when the user owns at least one open session (and then holds exactly
those sessions), so `isUserConnected` is true iff at least one channel is
open; in particular a user's only channel closing makes them offline, while
closing one of two channels keeps them online. -/
theorem connectionRegistry_isOnline (events : List WSEvent) (u : String) :
    registryOf events u =
      (if openSessions events u = [] then none else some (openSessions events u)) ∧
    (isUserConnected (registryOf events) u = true ↔ openSessions events u ≠ []) ∧
    isUserConnected (registryOf
      [WSEvent.connect "u1" "s1", WSEvent.disconnect "u1" "s1"]) "u1" = false ∧
    isUserConnected (registryOf
      [WSEvent.connect "u1" "s1", WSEvent.connect "u1" "s2",
       WSEvent.disconnect "u1" "s1"]) "u1" = true := by
  have hinv := registry_fold_inv events emptyConnectedUsers (fun _ => [])
    (fun v => rfl) u
  have h2 : isUserConnected (registryOf events) u = true ↔ openSessions events u ≠ [] := by
    unfold isUserConnected registryOf openSessions
    rw [hinv]
    by_cases hn : List.foldl (openSessionsStep u) [] events = []
    · simp [hn]
    · simp [hn, List.length_pos]
  refine ⟨hinv, h2, by decide, by decide⟩

/-- C4 counterexample: with the socket server initialized and `user1` owning
zero open channels, `sendAlert` still returns `true` while delivering to no
channel — contradicting "returns true iff delivered to at least one open
channel" and "offline push returns false". -/
theorem sendAlert_offline_counterexample :
    (sendAlert true emptyConnectedUsers "user1"
      { alertType := "call", fromEntity := "9944084754",
        riskLevel := "high_risk", riskScore := 9 }).returned = true ∧
    (sendAlert true emptyConnectedUsers "user1"
      { alertType := "call", fromEntity := "9944084754",
        riskLevel := "high_risk", riskScore := 9 }).deliveredTo = [] ∧
    isUserConnected emptyConnectedUsers "user1" = false ∧
    ¬ ((sendAlert true emptyConnectedUsers "user1"
      { alertType := "call", fromEntity := "9944084754",
        riskLevel := "high_risk", riskScore := 9 }).returned = true ↔
       (sendAlert true emptyConnectedUsers "user1"
      { alertType := "call", fromEntity := "9944084754",
        riskLevel := "high_risk", riskScore := 9 }).deliveredTo ≠ []) := by
  decide

/-- C4 amended: `sendAlert` never throws; it returns `false` iff the socket
server is uninitialized.  When initialized it always returns `true` — even for
a user with zero open channels — and the emission reaches exactly the user's
registered sockets. -/
theorem sendAlert_returns (reg : ConnectedUsers) (userId : String) (alertData : AlertData) :
    sendAlert false reg userId alertData =
      { returned := false, deliveredTo := [], payload := none } ∧
    (sendAlert true reg userId alertData).returned = true ∧
    (sendAlert true reg userId alertData).deliveredTo = (reg userId).getD [] ∧
    (sendAlert true reg userId alertData).payload = some alertData :=
  ⟨rfl, rfl, rfl, rfl⟩

/-! ## ContentFraudAnalyzer: C5 and C10 -/

theorem categoryFoldStep_score (lower : List Char) (st : Nat × List ContentFinding)
    (cat : String × List String) :
    (categoryFoldStep lower st cat).1 =
      st.1 + (categoryMatches lower cat.2).length * getCategoryWeight cat.1 := by
  unfold categoryFoldStep
  by_cases h : (categoryMatches lower cat.2).length > 0
  · rw [if_pos h]
  · rw [if_neg h]
    have h0 : (categoryMatches lower cat.2).length = 0 := by omega
    rw [h0, Nat.zero_mul, Nat.add_zero]

theorem foldl_categoryFoldStep_score (lower : List Char) (cats : List (String × List String)) :
    ∀ st : Nat × List ContentFinding,
      (cats.foldl (categoryFoldStep lower) st).1 =
        st.1 + (cats.map (fun cat =>
          (categoryMatches lower cat.2).length * getCategoryWeight cat.1)).sum := by
  induction cats with
  | nil => intro st; simp
  | cons c cs ih =>
    intro st
    simp only [List.foldl_cons, List.map_cons, List.sum_cons]
    rw [ih, categoryFoldStep_score, Nat.add_assoc]

theorem contentScoreFindings_score (c : String) :
    (contentScoreFindings c).1 =
      (FRAUD_KEYWORDS.map (fun cat =>
        (categoryMatches (c.toList.map Char.toLower) cat.2).length * getCategoryWeight cat.1)).sum
      + (if suspiciousUrlHit (c.toList.map Char.toLower) then 3 else 0)
      + (if excessiveCapsHit c.toList then 2 else 0) := by
  have hf := foldl_categoryFoldStep_score (c.toList.map Char.toLower) FRAUD_KEYWORDS (0, [])
  dsimp only [contentScoreFindings]
  simp only [String.toList] at hf
  by_cases hurl : suspiciousUrlHit (c.data.map Char.toLower) <;>
    by_cases hcaps : excessiveCapsHit c.data <;>
      simp [hurl, hcaps, hf, String.toList]

theorem contentRiskLevel_iff (s : Nat) :
    (contentRiskLevel s = "safe" ↔ s = 0) ∧
    (contentRiskLevel s = "low" ↔ 1 ≤ s ∧ s ≤ 5) ∧
    (contentRiskLevel s = "suspicious" ↔ 6 ≤ s ∧ s ≤ 10) ∧
    (contentRiskLevel s = "high_risk" ↔ 10 < s) := by
  unfold contentRiskLevel
  split_ifs with h1 h2 h3
  · exact ⟨⟨fun _ => h1, fun _ => rfl⟩,
      ⟨fun h => absurd h (by decide), fun h => by omega⟩,
      ⟨fun h => absurd h (by decide), fun h => by omega⟩,
      ⟨fun h => absurd h (by decide), fun h => by omega⟩⟩
  · exact ⟨⟨fun h => absurd h (by decide), fun h => absurd h h1⟩,
      ⟨fun _ => by omega, fun _ => rfl⟩,
      ⟨fun h => absurd h (by decide), fun h => by omega⟩,
      ⟨fun h => absurd h (by decide), fun h => by omega⟩⟩
  · exact ⟨⟨fun h => absurd h (by decide), fun h => absurd h h1⟩,
      ⟨fun h => absurd h (by decide), fun h => by omega⟩,
      ⟨fun _ => by omega, fun _ => rfl⟩,
      ⟨fun h => absurd h (by decide), fun h => by omega⟩⟩
  · exact ⟨⟨fun h => absurd h (by decide), fun h => absurd h h1⟩,
      ⟨fun h => absurd h (by decide), fun h => by omega⟩,
      ⟨fun h => absurd h (by decide), fun h => by omega⟩,
      ⟨fun _ => by omega, fun _ => rfl⟩⟩

theorem analyzeContent_nonempty (c : String) (hne : c ≠ "") :
    analyzeContentForFraud (some c) =
      { isSuspicious := decide ((contentScoreFindings c).1 > 0)
        score := (contentScoreFindings c).1
        riskLevel := some (contentRiskLevel (contentScoreFindings c).1)
        riskMessage := some (contentRiskMessage (contentScoreFindings c).1)
        findings := (contentScoreFindings c).2 } := by
  show (if c = "" then
      { isSuspicious := false, score := 0, riskLevel := none,
        riskMessage := none, findings := [] }
    else
      { isSuspicious := decide ((contentScoreFindings c).1 > 0)
        score := (contentScoreFindings c).1
        riskLevel := some (contentRiskLevel (contentScoreFindings c).1)
        riskMessage := some (contentRiskMessage (contentScoreFindings c).1)
        findings := (contentScoreFindings c).2 } : ContentAnalysis) = _
  rw [if_neg hne]

/-- C5: for every non-empty text, the content analyzer's score is the sum over
keyword categories of (matched-keyword count × weight — urgency 1, financial 2,
threats 3, impersonation 3, action_requests 2, suspicious_patterns 1), plus 3
once when a link-shortener / raw-IP URL pattern matches, plus 2 when more than
half the characters are upper case and the length exceeds 20; and the content
banding is `safe` iff 0, `low` iff 1..5, `suspicious` iff 6..10, `high_risk`
iff above 10. -/
theorem analyzeContent_score_banding (c : String) (hne : c ≠ "") :
    (analyzeContentForFraud (some c)).score =
      (categoryMatches (c.toList.map Char.toLower) urgencyKeywords).length * 1 +
      (categoryMatches (c.toList.map Char.toLower) financialKeywords).length * 2 +
      (categoryMatches (c.toList.map Char.toLower) threatsKeywords).length * 3 +
      (categoryMatches (c.toList.map Char.toLower) impersonationKeywords).length * 3 +
      (categoryMatches (c.toList.map Char.toLower) actionRequestsKeywords).length * 2 +
      (categoryMatches (c.toList.map Char.toLower) suspiciousPatternsKeywords).length * 1 +
      (if suspiciousUrlHit (c.toList.map Char.toLower) then 3 else 0) +
      (if excessiveCapsHit c.toList then 2 else 0) ∧
    ((analyzeContentForFraud (some c)).riskLevel = some "safe" ↔
      (analyzeContentForFraud (some c)).score = 0) ∧
    ((analyzeContentForFraud (some c)).riskLevel = some "low" ↔
      1 ≤ (analyzeContentForFraud (some c)).score ∧ (analyzeContentForFraud (some c)).score ≤ 5) ∧
    ((analyzeContentForFraud (some c)).riskLevel = some "suspicious" ↔
      6 ≤ (analyzeContentForFraud (some c)).score ∧ (analyzeContentForFraud (some c)).score ≤ 10) ∧
    ((analyzeContentForFraud (some c)).riskLevel = some "high_risk" ↔
      10 < (analyzeContentForFraud (some c)).score) := by
  obtain ⟨b1, b2, b3, b4⟩ := contentRiskLevel_iff (contentScoreFindings c).1
  rw [analyzeContent_nonempty c hne]
  refine ⟨?_, ?_, ?_, ?_, ?_⟩
  · show (contentScoreFindings c).1 = _
    rw [contentScoreFindings_score]
    have w1 : getCategoryWeight "urgency" = 1 := rfl
    have w2 : getCategoryWeight "financial" = 2 := rfl
    have w3 : getCategoryWeight "threats" = 3 := rfl
    have w4 : getCategoryWeight "impersonation" = 3 := rfl
    have w5 : getCategoryWeight "action_requests" = 2 := rfl
    have w6 : getCategoryWeight "suspicious_patterns" = 1 := rfl
    simp only [FRAUD_KEYWORDS, List.map_cons, List.map_nil, List.sum_cons, List.sum_nil,
      w1, w2, w3, w4, w5, w6]
    omega
  · simpa using b1
  · simpa using b2
  · simpa using b3
  · simpa using b4

/-- Witness for C5 at the concrete non-empty input `"hi"`. -/
theorem analyzeContent_score_banding_witness :
    "hi" ≠ "" ∧
    ((analyzeContentForFraud (some "hi")).score =
      (categoryMatches ("hi".toList.map Char.toLower) urgencyKeywords).length * 1 +
      (categoryMatches ("hi".toList.map Char.toLower) financialKeywords).length * 2 +
      (categoryMatches ("hi".toList.map Char.toLower) threatsKeywords).length * 3 +
      (categoryMatches ("hi".toList.map Char.toLower) impersonationKeywords).length * 3 +
      (categoryMatches ("hi".toList.map Char.toLower) actionRequestsKeywords).length * 2 +
      (categoryMatches ("hi".toList.map Char.toLower) suspiciousPatternsKeywords).length * 1 +
      (if suspiciousUrlHit ("hi".toList.map Char.toLower) then 3 else 0) +
      (if excessiveCapsHit "hi".toList then 2 else 0) ∧
    ((analyzeContentForFraud (some "hi")).riskLevel = some "safe" ↔
      (analyzeContentForFraud (some "hi")).score = 0) ∧
    ((analyzeContentForFraud (some "hi")).riskLevel = some "low" ↔
      1 ≤ (analyzeContentForFraud (some "hi")).score ∧
        (analyzeContentForFraud (some "hi")).score ≤ 5) ∧
    ((analyzeContentForFraud (some "hi")).riskLevel = some "suspicious" ↔
      6 ≤ (analyzeContentForFraud (some "hi")).score ∧
        (analyzeContentForFraud (some "hi")).score ≤ 10) ∧
    ((analyzeContentForFraud (some "hi")).riskLevel = some "high_risk" ↔
      10 < (analyzeContentForFraud (some "hi")).score)) :=
  ⟨by decide, analyzeContent_score_banding "hi" (by decide)⟩

/-- C10: for `null`/non-string input (modelled `none`) and for the empty
string, the analyzer returns `{isSuspicious: false, score: 0, findings: []}`
with no `riskLevel` (or `riskMessage`) field at all; and the result carries no
`riskLevel` exactly when the input string is empty — every non-empty input
gets one. -/
theorem analyzeContent_falsy (s : String) :
    analyzeContentForFraud none =
      { isSuspicious := false, score := 0, riskLevel := none,
        riskMessage := none, findings := [] } ∧
    analyzeContentForFraud (some "") =
      { isSuspicious := false, score := 0, riskLevel := none,
        riskMessage := none, findings := [] } ∧
    ((analyzeContentForFraud (some s)).riskLevel = none ↔ s = "") := by
  refine ⟨rfl, rfl, ?_⟩
  by_cases h : s = ""
  · subst h
    exact ⟨fun _ => rfl, fun _ => rfl⟩
  · rw [analyzeContent_nonempty s h]
    simp [h]
